import Mathlib

/-!
Shallow embedding of `skbio/io/_registry.py`: a format-plugin registry with
registration of identifier/reader/writer functions, lookup, format sniffing
(`guess_format`) and generic `read`/`write` dispatch.

Python dicts are modelled as association lists (preserving insertion order,
the iteration order of a Python dict).  Registered user functions are
abstract tokens (`Func`); their behavior, where the registry invokes them, is supplied
through explicit interpretation parameters.  Python exceptions become an
explicit `Except PyErr` result; because the module-level dicts persist across
a raised exception, every mutating operation also returns the registry state
that is left behind.
-/

namespace SkbioIO

/-- Format names are plain strings. -/
abbrev Fmt := String

/-- Python classes are abstracted by their names (`cls.__name__`). -/
abbrev PyType := String

/-- Registered user functions (identifiers, readers, writers) are abstract tokens. -/
abbrev Func := Nat

/-- Values produced by readers and consumed by writers. -/
abbrev Val := Nat

/-- The two role keys stored in a `_formats[fmt][cls]` dict. -/
inductive Role where
  | reader
  | writer
deriving DecidableEq, Repr

/-- The role name as it appears in error messages. -/
def Role.str : Role → String
  | .reader => "reader"
  | .writer => "writer"

/-- Python exceptions raised by the registry.  The
`formatIdentificationError` constructor carries, besides the message, the
list of format names the message names (empty for the cannot-determine
message).  Errors raised by user-supplied reader/writer functions are
`userError`. -/
inductive PyErr where
  | valueError (msg : String)
  | typeError (msg : String)
  | attributeError (msg : String)
  | duplicateRegistrationError (msg : String)
  | formatIdentificationError (msg : String) (named : List Fmt)
  | fileFormatError (msg : String)
  | userError (code : Nat)
deriving DecidableEq, Repr

/-- Lookup in an association list: Python `d[k]` / `k in d`. -/
def alookup {α β : Type} [DecidableEq α] (k : α) : List (α × β) → Option β
  | [] => none
  | (a, b) :: rest => if a = k then some b else alookup k rest

/-- Dict assignment `d[k] = v`: overwrite in place preserving position,
append when the key is new (a Python dict keeps insertion order). -/
def aset {α β : Type} [DecidableEq α] (k : α) (v : β) : List (α × β) → List (α × β)
  | [] => [(k, v)]
  | (a, b) :: rest => if a = k then (a, v) :: rest else (a, b) :: aset k v rest

/-- The innermost dict of `_formats`: at most a reader and a writer per
(format, class) slot. -/
structure RoleSlot where
  reader : Option Func
  writer : Option Func
deriving DecidableEq, Repr

/-- Dict read `format_class[name]`. -/
def RoleSlot.get (sl : RoleSlot) : Role → Option Func
  | .reader => sl.reader
  | .writer => sl.writer

/-- Dict write `format_class[name] = func`. -/
def RoleSlot.set (sl : RoleSlot) (r : Role) (f : Func) : RoleSlot :=
  match r with
  | .reader => { sl with reader := some f }
  | .writer => { sl with writer := some f }

/-- A freshly created `_formats[fmt][cls]` dict, before any role is bound. -/
def emptySlot : RoleSlot := ⟨none, none⟩

/-- The keys of the middle dict `_formats[fmt]` are classes, with `None`
(the streaming tag) a valid key. -/
abbrev FormatsStore := List (Fmt × List (Option PyType × RoleSlot))

/-- The two module-level dicts `_formats` and `_identifiers`. -/
structure Registry where
  formats : FormatsStore
  identifiers : List (Fmt × Func)
deriving DecidableEq, Repr

/-- The initial state of the module: both dicts empty. -/
def emptyRegistry : Registry := ⟨[], []⟩

/-- The decorator produced by `register_identifier(fmt)`, applied to
`identifier`: raise `DuplicateRegistrationError` when `fmt` already has an
identifier, otherwise store the function and return it unchanged.  The
second component is the registry state left behind (unchanged on failure,
since the check precedes the insertion). -/
def register_identifier (fmt : Fmt) (identifier : Func) (s : Registry) :
    Except PyErr Func × Registry :=
  if (alookup fmt s.identifiers).isSome then
    (.error (.duplicateRegistrationError (fmt ++ " already has an identifier.")), s)
  else
    (.ok identifier, { s with identifiers := aset fmt identifier s.identifiers })

/-- The decorator closure built by `_rw_decorator(name, fmt, *args)` after
its arity check, applied to `func`.  It creates the `_formats[fmt]` and
`_formats[fmt][cls]` dicts when absent, inserts `func` when the role is
free, and otherwise raises: building the duplicate message evaluates
`cls.__name__`, which for `cls = None` (the streaming tag) raises
`AttributeError` instead of the intended `DuplicateRegistrationError`.
The registry state left behind is returned in all cases. -/
def rwDecoratorBody (name : Role) (fmt : Fmt) (cls : Option PyType) (func : Func)
    (s : Registry) : Except PyErr Func × Registry :=
  let formats1 :=
    if (alookup fmt s.formats).isSome then s.formats else aset fmt [] s.formats
  let format_dict := (alookup fmt formats1).getD []
  let format_dict1 :=
    if (alookup cls format_dict).isSome then format_dict
    else aset cls emptySlot format_dict
  let format_class := (alookup cls format_dict1).getD emptySlot
  match format_class.get name with
  | none =>
      (.ok func,
        { s with formats := aset fmt (aset cls (format_class.set name func) format_dict1) formats1 })
  | some _ =>
      match cls with
      | some c =>
          (.error (.duplicateRegistrationError
              (fmt ++ " already has a " ++ name.str ++ " for " ++ c ++ ".")),
            { s with formats := aset fmt format_dict1 formats1 })
      | none =>
          (.error (.attributeError "NoneType object has no attribute __name__"),
            { s with formats := aset fmt format_dict1 formats1 })

/-- `_rw_decorator(name, fmt, *args)` applied to `func`: the arity check of
the factory, then the decorator body with the extracted class. -/
def _rw_decorator (name : Role) (fmt : Fmt) (args : List (Option PyType)) (func : Func)
    (s : Registry) : Except PyErr Func × Registry :=
  if 1 < args.length then
    (.error (.typeError ("register_" ++ name.str ++ " takes 1 or 2 arguments")), s)
  else
    rwDecoratorBody name fmt (args.headD none) func s

/-- `register_reader(fmt, *cls)` delegates to `_rw_decorator`. -/
def register_reader (fmt : Fmt) (args : List (Option PyType)) :
    Func → Registry → Except PyErr Func × Registry :=
  _rw_decorator .reader fmt args

/-- `register_writer(fmt, *cls)` delegates to `_rw_decorator`. -/
def register_writer (fmt : Fmt) (args : List (Option PyType)) :
    Func → Registry → Except PyErr Func × Registry :=
  _rw_decorator .writer fmt args

/-- `get_identifier(fmt)`: the registered identifier or `None`. -/
def get_identifier (fmt : Fmt) (s : Registry) : Option Func :=
  alookup fmt s.identifiers

/-- The successful lookup path of `_rw_getter`: walk
`_formats[fmt][cls][name]`, returning `None` at the first missing key. -/
def getRole (name : Role) (fmt : Fmt) (cls : Option PyType) (s : Registry) : Option Func :=
  (alookup fmt s.formats).bind fun fd => (alookup cls fd).bind fun sl => sl.get name

/-- `_rw_getter(name, fmt, *args)`: arity check, then the nested lookups. -/
def _rw_getter (name : Role) (fmt : Fmt) (args : List (Option PyType)) (s : Registry) :
    Except PyErr (Option Func) :=
  if 1 < args.length then
    .error (.typeError ("get_" ++ name.str ++ " takes 1 or 2 arguments"))
  else
    .ok (getRole name fmt (args.headD none) s)

/-- `get_reader(fmt, *cls)` delegates to `_rw_getter`. -/
def get_reader (fmt : Fmt) (args : List (Option PyType)) (s : Registry) :
    Except PyErr (Option Func) :=
  _rw_getter .reader fmt args s

/-- `get_writer(fmt, *cls)` delegates to `_rw_getter`. -/
def get_writer (fmt : Fmt) (args : List (Option PyType)) (s : Registry) :
    Except PyErr (Option Func) :=
  _rw_getter .writer fmt args s

/-- `_rw_list_formats(name, cls)`: the formats with the role bound for `cls`,
in registration order. -/
def _rw_list_formats (name : Role) (cls : Option PyType) (s : Registry) : List Fmt :=
  s.formats.filterMap fun e =>
    match alookup cls e.2 with
    | none => none
    | some sl => if (sl.get name).isSome then some e.1 else none

/-- A file handle: a read position and a closed flag.  The content is left
abstract; identifier verdicts are a function of the position the identifier
observes. -/
structure Stream where
  pos : Nat
  closed : Bool
deriving DecidableEq, Repr

/-- Behavior of an identifier function: from the position at which it
observes the handle, its boolean verdict and the position it leaves the
handle at. -/
abbrev Ident := Nat → Bool × Nat

/-- The skip test of the `guess_format` loop:
`cls is not None and (fmt not in _formats or cls not in _formats[fmt])`. -/
def guessSkip (formats : FormatsStore) (cls : Option PyType) (fmt : Fmt) : Bool :=
  cls.isSome &&
    (match alookup fmt formats with
     | none => true
     | some fd => (alookup cls fd).isNone)

/-- The identifier loop of `guess_format`: walk `_identifiers` in dict
order, skip formats outside the `cls` restriction, invoke each remaining
identifier against the handle and seek back to the start regardless of the
verdict, collecting the formats with a positive verdict. -/
def guessLoop (idI : Func → Ident) (formats : FormatsStore) (cls : Option PyType) :
    List (Fmt × Func) → Stream → List Fmt → List Fmt × Stream
  | [], fh, possibles => (possibles, fh)
  | (fmt, test) :: rest, fh, possibles =>
    if guessSkip formats cls fmt then
      guessLoop idI formats cls rest fh possibles
    else
      let r := idI test fh.pos
      let possibles1 := if r.1 then possibles ++ [fmt] else possibles
      let fh1 : Stream := { fh with pos := r.2 }
      guessLoop idI formats cls rest { fh1 with pos := 0 } possibles1

/-- `guess_format(fp, cls)` over an already-open handle (the borrowed case
of `open_file`): seek to the start, run the identifier loop, then apply the
decision rule to the collected `possibles`.  The handle state is returned
alongside the result (the borrowed handle is not closed). -/
def guess_format (idI : Func → Ident) (s : Registry) (cls : Option PyType)
    (fp : Stream) : Except PyErr Fmt × Stream :=
  let fh : Stream := { fp with pos := 0 }
  let lp := guessLoop idI s.formats cls s.identifiers fh []
  let possibles := lp.1
  if possibles.isEmpty then
    (.error (.formatIdentificationError "Cannot guess the format." []), lp.2)
  else if 1 < possibles.length then
    (.error (.formatIdentificationError "File format is ambiguous." possibles), lp.2)
  else
    (.ok (possibles.headD ""), lp.2)

/-- A source for `read`/`write`/`guess_format`: a filepath or an
already-open fileobject. -/
inductive Source where
  | path (p : String)
  | handle (st : Stream)
deriving DecidableEq, Repr

/-- Modelled from the spec: `_get_filehandle` lives in `skbio/io/util.py`,
which is not part of the sources under study.  Per the spec it yields, for
a path, a freshly opened stream owned by the dispatch layer, and for a
fileobject the stream of the caller, borrowed. -/
def _get_filehandle : Source → Stream × Bool
  | .path _ => ({ pos := 0, closed := false }, true)
  | .handle st => (st, false)

/-- Behavior of the generator object a streaming reader returns: pulls
yield `items` in order and the pull after the last item raises `tailErr`,
or `StopIteration` when `tailErr` is `none` (normal exhaustion). -/
structure GenBehavior where
  items : List Val
  tailErr : Option PyErr
deriving DecidableEq, Repr

/-- Control state of the `wrapper_generator` frame in the streaming branch
of `read`: not yet started, running with the remaining behavior of
`original`, or finished. -/
inductive WStage where
  | start
  | active (remaining : List Val) (tailErr : Option PyErr)
  | done
deriving DecidableEq, Repr

/-- The lazy sequence the streaming branch of `read` returns:
`wrapper_generator` compiled to a state machine.  `closes` counts how many
times `fh.close()` has run; `readerCalls` counts invocations of the
registered reader. -/
structure WGen where
  reader : Func
  fh : Stream
  is_own : Bool
  stage : WStage
  closes : Nat
  readerCalls : Nat
deriving DecidableEq, Repr

/-- The outcome of one `next()` on the wrapper generator: a yielded
element, `StopIteration`, or a propagated error. -/
inductive PullResult where
  | yielded (v : Val)
  | stopped
  | raised (e : PyErr)
deriving DecidableEq, Repr

/-- One pull of the running wrapper body (`yield next(original)`): yield
the next element, or hit the end of `original` — `StopIteration` or an
error — which unwinds through the `finally` block, closing the handle when
it is owned, and finishes the generator. -/
def WGen.step (g : WGen) : PullResult × WGen :=
  match g.stage with
  | .active (v :: rest) te => (.yielded v, { g with stage := .active rest te })
  | .active [] te =>
    ((match te with | none => .stopped | some e => .raised e),
      { g with
          fh := if g.is_own then { g.fh with closed := true } else g.fh,
          closes := if g.is_own then g.closes + 1 else g.closes,
          stage := .done })
  | _ => (.stopped, g)

/-- `next()` on the wrapper generator.  The first call runs the body up to
the first yield, which invokes the registered reader to obtain `original`;
a finished generator raises `StopIteration` without touching the handle. -/
def WGen.next (rdG : Func → Stream → GenBehavior) (g : WGen) : PullResult × WGen :=
  match g.stage with
  | .done => (.stopped, g)
  | .start =>
    let b := rdG g.reader g.fh
    WGen.step { g with stage := .active b.items b.tailErr,
                       readerCalls := g.readerCalls + 1 }
  | .active _ _ => WGen.step g

/-- Drive the wrapper generator through `n` pulls. -/
def WGen.run (rdG : Func → Stream → GenBehavior) : Nat → WGen → WGen
  | 0, g => g
  | n + 1, g => WGen.run rdG n (WGen.next rdG g).2

/-- What `read` returns on success: a constructed value (eager mode) or the
lazy wrapper generator (streaming mode). -/
inductive ReadResult where
  | value (v : Val)
  | lazy (g : WGen)
deriving DecidableEq, Repr

/-- `read(fp, format, into, mode)`.  `idI` interprets identifier tokens (for
sniffing) and `rdE` interprets a reader token invoked eagerly; in streaming
mode the reader token is captured in the returned wrapper generator and
interpreted only when the generator is driven.
The second component is the state of the acquired stream at the moment
`read` returns or its exception propagates (`none` when the `ValueError`
fires before any stream is acquired); no failure path of the source closes
the acquired stream. -/
def read (idI : Func → Ident)
    (rdE : Func → Stream → Except PyErr (Val × Stream)) (s : Registry)
    (fp : Source) (format : Option Fmt) (into : Option PyType) :
    Except PyErr ReadResult × Option Stream :=
  if format = none ∧ into = none then
    (.error (.valueError "format and into cannot both be None."), none)
  else
    let fhOwn := _get_filehandle fp
    let fh := fhOwn.1
    let is_own := fhOwn.2
    let fmtRes : Except PyErr Fmt × Stream :=
      match format with
      | some f => (.ok f, fh)
      | none => guess_format idI s into fh
    match fmtRes with
    | (.error e, fh1) => (.error e, some fh1)
    | (.ok f, fh1) =>
      match _rw_getter .reader f [into] s with
      | .error e => (.error e, some fh1)
      | .ok none =>
        (.error (.fileFormatError
            ("Cannot read " ++ f ++ " into "
              ++ (match into with | some t => t | none => "generator")
              ++ ", no reader found.")),
          some fh1)
      | .ok (some reader) =>
        match into with
        | none =>
          (.ok (.lazy { reader := reader, fh := fh1, is_own := is_own,
                        stage := .start, closes := 0, readerCalls := 0 }),
            some fh1)
        | some _ =>
          match rdE reader fh1 with
          | .error e => (.error e, some fh1)
          | .ok (v, fh2) =>
            let fh3 := if is_own then { fh2 with closed := true } else fh2
            (.ok (.value v), some fh3)

/-- `write(obj, format, into, mode)`.  `wrI` interprets the writer token.
The `with open_file(into, mode)` block is modelled from the spec: the
acquisition facility of `skbio/io/util.py` is not under the sources studied,
and per the spec it guarantees closing a path-opened stream on every exit
path, while a borrowed fileobject is never closed.  The second component is
the stream state after the block exits (`none` when a `ValueError` fires
before acquisition). -/
def write (wrI : Func → Val → Stream → Except PyErr Stream) (s : Registry)
    (obj : Val) (objCls : PyType) (format : Option Fmt) (into : Option Source) :
    Except PyErr Unit × Option Stream :=
  match format with
  | none => (.error (.valueError "Must specify a format to write out as."), none)
  | some f =>
    match into with
    | none => (.error (.valueError "Must provide a filepath or filehandle for into."), none)
    | some dest =>
      let fhOwn := _get_filehandle dest
      let fh := fhOwn.1
      let owned := fhOwn.2
      let body : Except PyErr Unit × Stream :=
        match _rw_getter .writer f [some objCls] s with
        | .error e => (.error e, fh)
        | .ok none =>
          (.error (.fileFormatError ("Cannot write " ++ f ++ " into stream, no writer found.")), fh)
        | .ok (some w) =>
          match wrI w obj fh with
          | .error e => (.error e, fh)
          | .ok fh2 => (.ok (), fh2)
      (body.1, some (if owned then { body.2 with closed := true } else body.2))

/-! ### Association-list lemmas -/

@[simp]
theorem alookup_nil {α β : Type} [DecidableEq α] (k : α) :
    alookup k ([] : List (α × β)) = none := rfl

@[simp]
theorem alookup_aset_self {α β : Type} [DecidableEq α] (k : α) (v : β)
    (l : List (α × β)) : alookup k (aset k v l) = some v := by
  induction l with
  | nil => simp [aset, alookup]
  | cons hd tl ih =>
    obtain ⟨a, b⟩ := hd
    by_cases h : a = k
    · simp [aset, alookup, h]
    · simp [aset, alookup, h, ih]

theorem alookup_aset_ne {α β : Type} [DecidableEq α] {k k' : α} (v : β)
    (l : List (α × β)) (h : k' ≠ k) :
    alookup k' (aset k v l) = alookup k' l := by
  induction l with
  | nil =>
    simp only [aset, alookup]
    rw [if_neg fun hh => h hh.symm]
  | cons hd tl ih =>
    obtain ⟨a, b⟩ := hd
    by_cases hak : a = k
    · subst hak
      simp only [aset, if_pos rfl, alookup]
      rw [if_neg fun hh => h hh.symm, if_neg fun hh => h hh.symm]
    · rw [aset, if_neg hak]
      simp only [alookup]
      by_cases hak' : a = k'
      · rw [if_pos hak', if_pos hak']
      · rw [if_neg hak', if_neg hak', ih]

theorem aset_of_alookup_some {α β : Type} [DecidableEq α] {k : α} {v : β}
    {l : List (α × β)} (h : alookup k l = some v) : aset k v l = l := by
  induction l with
  | nil => simp [alookup] at h
  | cons hd tl ih =>
    obtain ⟨a, b⟩ := hd
    by_cases ha : a = k
    · subst ha
      simp [alookup] at h
      simp [aset, h]
    · simp [alookup, ha] at h
      simp [aset, ha, ih h]

@[simp]
theorem RoleSlot.get_set_self (sl : RoleSlot) (r : Role) (f : Func) :
    (sl.set r f).get r = some f := by
  cases r <;> simp [RoleSlot.get, RoleSlot.set]

@[simp]
theorem emptySlot_get (r : Role) : emptySlot.get r = none := by
  cases r <;> simp [RoleSlot.get, emptySlot]

/-! ### Characterization of `_rw_decorator` -/

/-- A failed registration through the decorator body leaves the registry
exactly as it was: the error can only fire when both the format and the
class slot already existed, in which case the dict writes put back the
values already there. -/
theorem rwDecoratorBody_error_state (name : Role) (fmt : Fmt) (cls : Option PyType)
    (g : Func) (s : Registry) (e : PyErr)
    (h : (rwDecoratorBody name fmt cls g s).1 = .error e) :
    (rwDecoratorBody name fmt cls g s).2 = s := by
  unfold rwDecoratorBody at h ⊢
  cases hf : alookup fmt s.formats with
  | none =>
    exfalso
    simp [hf] at h
  | some fd =>
    simp only [hf, Option.isSome_some, if_true, Option.getD_some] at h ⊢
    cases hc : alookup cls fd with
    | none =>
      exfalso
      simp [hc] at h
    | some sl =>
      simp only [hc, Option.isSome_some, if_true, Option.getD_some] at h ⊢
      cases hg : sl.get name with
      | none => simp [hg] at h
      | some f0 =>
        have hset : aset fmt fd s.formats = s.formats := aset_of_alookup_some hf
        cases cls with
        | none => simp [hg, hset]
        | some c => simp [hg, hset]

/-- A failed registration through `_rw_decorator` leaves the registry
exactly as it was. -/
theorem rw_decorator_error_state (name : Role) (fmt : Fmt) (args : List (Option PyType))
    (g : Func) (s : Registry) (e : PyErr)
    (h : (_rw_decorator name fmt args g s).1 = .error e) :
    (_rw_decorator name fmt args g s).2 = s := by
  unfold _rw_decorator at h ⊢
  by_cases ha : 1 < args.length
  · simp [ha]
  · simp only [if_neg ha] at h ⊢
    exact rwDecoratorBody_error_state name fmt (args.headD none) g s e h

/-- A registration into a free role slot through the decorator body
succeeds, stores the function, and returns it unchanged. -/
theorem rwDecoratorBody_ok (name : Role) (fmt : Fmt) (cls : Option PyType)
    (g : Func) (s : Registry) (h : getRole name fmt cls s = none) :
    (rwDecoratorBody name fmt cls g s).1 = .ok g ∧
    getRole name fmt cls (rwDecoratorBody name fmt cls g s).2 = some g := by
  unfold rwDecoratorBody
  cases hf : alookup fmt s.formats with
  | none =>
    simp [hf, getRole, alookup_aset_self]
  | some fd =>
    simp only [hf, Option.isSome_some, if_true, Option.getD_some]
    cases hc : alookup cls fd with
    | none =>
      simp [hc, getRole, alookup_aset_self]
    | some sl =>
      have hg : sl.get name = none := by
        simpa [getRole, hf, hc] using h
      simp [hc, hg, getRole, alookup_aset_self]

/-- A registration through `_rw_decorator` with a single class argument and
a free role slot succeeds, stores the function, and returns it unchanged. -/
theorem rw_decorator_ok (name : Role) (fmt : Fmt) (cls : Option PyType)
    (g : Func) (s : Registry) (h : getRole name fmt cls s = none) :
    (_rw_decorator name fmt [cls] g s).1 = .ok g ∧
    getRole name fmt cls (_rw_decorator name fmt [cls] g s).2 = some g := by
  unfold _rw_decorator
  simp only [List.length_singleton, Nat.lt_irrefl, if_false, List.headD_cons]
  exact rwDecoratorBody_ok name fmt cls g s h

/-! ### Claims about registration (C6, C7, C2) -/

/-- C6: for a format with no identifier yet, applying the decorator
produced by `register_identifier(fmt)` to a function returns that function
unchanged and a subsequent `get_identifier(fmt)` returns the same function;
the analogous transparent round trip holds for `register_reader`
/`get_reader` and `register_writer`/`get_writer` on a fresh
(format, owner type) slot. -/
theorem registration_round_trip (s : Registry) (fmt : Fmt) (cls : Option PyType) (g : Func)
    (hid : get_identifier fmt s = none)
    (hrd : getRole .reader fmt cls s = none)
    (hwr : getRole .writer fmt cls s = none) :
    ((register_identifier fmt g s).1 = .ok g ∧
      get_identifier fmt (register_identifier fmt g s).2 = some g) ∧
    ((register_reader fmt [cls] g s).1 = .ok g ∧
      get_reader fmt [cls] (register_reader fmt [cls] g s).2 = .ok (some g)) ∧
    ((register_writer fmt [cls] g s).1 = .ok g ∧
      get_writer fmt [cls] (register_writer fmt [cls] g s).2 = .ok (some g)) := by
  refine ⟨?_, ?_, ?_⟩
  · have hnone : alookup fmt s.identifiers = none := hid
    constructor
    · simp [register_identifier, hnone]
    · simp [register_identifier, get_identifier, hnone, alookup_aset_self]
  · have h := rw_decorator_ok .reader fmt cls g s hrd
    refine ⟨h.1, ?_⟩
    simp only [get_reader, _rw_getter, register_reader, List.length_singleton,
      Nat.lt_irrefl, if_false, List.headD_cons]
    exact congrArg Except.ok h.2
  · have h := rw_decorator_ok .writer fmt cls g s hwr
    refine ⟨h.1, ?_⟩
    simp only [get_writer, _rw_getter, register_writer, List.length_singleton,
      Nat.lt_irrefl, if_false, List.headD_cons]
    exact congrArg Except.ok h.2

/-- Witness for C6 at a concrete fresh format and class. -/
theorem registration_round_trip_witness :
    ((register_identifier "fasta" 3 emptyRegistry).1 = .ok 3 ∧
      get_identifier "fasta" (register_identifier "fasta" 3 emptyRegistry).2 = some 3) ∧
    ((register_reader "fasta" [some "DNA"] 3 emptyRegistry).1 = .ok 3 ∧
      get_reader "fasta" [some "DNA"]
        (register_reader "fasta" [some "DNA"] 3 emptyRegistry).2 = .ok (some 3)) ∧
    ((register_writer "fasta" [some "DNA"] 3 emptyRegistry).1 = .ok 3 ∧
      get_writer "fasta" [some "DNA"]
        (register_writer "fasta" [some "DNA"] 3 emptyRegistry).2 = .ok (some 3)) :=
  registration_round_trip emptyRegistry "fasta" (some "DNA") 3 rfl rfl rfl

/-- C7: a registration call that fails (in particular with
duplicate-registration) leaves the registry state exactly as it was, adding
no entry and changing no binding. -/
theorem failed_registration_preserves_registry (s : Registry) (fmt fmt2 : Fmt)
    (g g2 : Func) (name : Role) (args : List (Option PyType)) :
    (∀ e, (register_identifier fmt g s).1 = .error e →
      (register_identifier fmt g s).2 = s) ∧
    (∀ e, (_rw_decorator name fmt2 args g2 s).1 = .error e →
      (_rw_decorator name fmt2 args g2 s).2 = s) := by
  constructor
  · intro e h
    by_cases hb : (alookup fmt s.identifiers).isSome
    · simp [register_identifier, hb]
    · simp [register_identifier, hb] at h
  · intro e h
    exact rw_decorator_error_state name fmt2 args g2 s e h

/-- A registry holding an identifier for fasta and a reader for
(fasta, DNA), used to exercise duplicate registrations. -/
def sDup : Registry :=
  (register_identifier "fasta" 1
    (_rw_decorator .reader "fasta" [some "DNA"] 2 emptyRegistry).2).2

/-- Witness for C7: both duplicate registrations fail and preserve the
concrete registry. -/
theorem failed_registration_preserves_registry_witness :
    (register_identifier "fasta" 9 sDup).2 = sDup ∧
    (_rw_decorator .reader "fasta" [some "DNA"] 9 sDup).2 = sDup :=
  ⟨(failed_registration_preserves_registry sDup "fasta" "fasta" 9 9 .reader
      [some "DNA"]).1
      (.duplicateRegistrationError "fasta already has an identifier.") rfl,
    (failed_registration_preserves_registry sDup "fasta" "fasta" 9 9 .reader
      [some "DNA"]).2
      (.duplicateRegistrationError "fasta already has a reader for DNA.") rfl⟩

/-- A registry with a streaming (no-type) reader registered for fasta. -/
def sGenReader : Registry := (_rw_decorator .reader "fasta" [] 0 emptyRegistry).2

/-- A registry with a reader registered for (fasta, DNA). -/
def sDNAReader : Registry := (_rw_decorator .reader "fasta" [some "DNA"] 2 emptyRegistry).2

/-- C2 (code bug): registering a second reader for an occupied
(format, owner type) slot raises duplicate-registration when the owner type
is a class, but for the streaming tag (`cls = None`) the duplicate branch
evaluates `cls.__name__` and raises `AttributeError` instead, against the
documented `DuplicateRegistrationError`.  A reader and a writer for the
same slot still register independently. -/
theorem duplicate_streaming_reader_raises_attribute_error :
    ((_rw_decorator .reader "fasta" [] 1 sGenReader).1
        = .error (.attributeError "NoneType object has no attribute __name__")) ∧
    ((_rw_decorator .reader "fasta" [some "DNA"] 3 sDNAReader).1
        = .error (.duplicateRegistrationError "fasta already has a reader for DNA.")) ∧
    ((_rw_decorator .writer "fasta" [] 4 sGenReader).1 = .ok 4) ∧
    ((_rw_decorator .writer "fasta" [some "DNA"] 5 sDNAReader).1 = .ok 5) := by
  exact ⟨rfl, rfl, rfl, rfl⟩

/-! ### The registry store invariant (C9) -/

/-- Every (format, class) slot present in `_formats` binds at least one of
a reader or a writer. -/
def RegInvariant (s : Registry) : Prop :=
  ∀ fmt fd, alookup fmt s.formats = some fd →
    ∀ cls sl, alookup cls fd = some sl → sl.reader.isSome ∨ sl.writer.isSome

/-- The registry states reachable from the empty module state through the
registration entry points (successful or failed calls alike). -/
inductive Reachable : Registry → Prop where
  | init : Reachable emptyRegistry
  | regIdentifier (fmt : Fmt) (f : Func) (s : Registry) :
      Reachable s → Reachable (register_identifier fmt f s).2
  | regRW (name : Role) (fmt : Fmt) (args : List (Option PyType)) (f : Func)
      (s : Registry) : Reachable s → Reachable (_rw_decorator name fmt args f s).2

theorem aset_aset {α β : Type} [DecidableEq α] (k : α) (v v' : β) (l : List (α × β)) :
    aset k v (aset k v' l) = aset k v l := by
  induction l with
  | nil => simp [aset]
  | cons hd tl ih =>
    obtain ⟨a, b⟩ := hd
    by_cases ha : a = k
    · simp [aset, ha]
    · simp [aset, ha, ih]

theorem RoleSlot.set_nonempty (sl : RoleSlot) (r : Role) (f : Func) :
    ((sl.set r f).reader).isSome ∨ ((sl.set r f).writer).isSome := by
  cases r
  · exact Or.inl (by simp [RoleSlot.set])
  · exact Or.inr (by simp [RoleSlot.set])

/-- Inserting a role binding into a (possibly fresh) slot preserves the
store invariant. -/
theorem regInvariant_aset (s : Registry) (hinv : RegInvariant s) (fmt : Fmt)
    (cls : Option PyType) (fd0 : List (Option PyType × RoleSlot)) (sl0 : RoleSlot)
    (name : Role) (g : Func)
    (hfd0 : fd0 = [] ∨ alookup fmt s.formats = some fd0) :
    RegInvariant { s with formats := aset fmt (aset cls (sl0.set name g) fd0) s.formats } := by
  intro fmt' fd' hfd' cls' sl' hsl'
  by_cases hfmt : fmt' = fmt
  · subst hfmt
    rw [alookup_aset_self] at hfd'
    injection hfd' with hfd'
    subst hfd'
    by_cases hcls : cls' = cls
    · subst hcls
      rw [alookup_aset_self] at hsl'
      injection hsl' with hsl'
      subst hsl'
      exact RoleSlot.set_nonempty sl0 name g
    · rw [alookup_aset_ne _ _ hcls] at hsl'
      rcases hfd0 with h0 | h0
      · subst h0
        simp [alookup] at hsl'
      · exact hinv fmt' fd0 h0 cls' sl' hsl'
  · rw [alookup_aset_ne _ _ hfmt] at hfd'
    exact hinv fmt' fd' hfd' cls' sl' hsl'

/-- The decorator body preserves the store invariant, on success and on
failure alike. -/
theorem rwDecoratorBody_inv (name : Role) (fmt : Fmt) (cls : Option PyType)
    (g : Func) (s : Registry) (hinv : RegInvariant s) :
    RegInvariant (rwDecoratorBody name fmt cls g s).2 := by
  unfold rwDecoratorBody
  cases hf : alookup fmt s.formats with
  | none =>
    simp only [hf, Option.isSome_none, Bool.false_eq_true, if_false,
      alookup_aset_self, Option.getD_some, alookup_nil, aset_aset, emptySlot_get]
    exact regInvariant_aset s hinv fmt cls [] emptySlot name g (Or.inl rfl)
  | some fd =>
    simp only [hf, Option.isSome_some, if_true, Option.getD_some]
    cases hc : alookup cls fd with
    | none =>
      simp only [hc, Option.isSome_none, Bool.false_eq_true, if_false,
        alookup_aset_self, Option.getD_some, emptySlot_get, aset_aset]
      exact regInvariant_aset s hinv fmt cls fd emptySlot name g (Or.inr hf)
    | some sl =>
      simp only [hc, Option.isSome_some, if_true, Option.getD_some]
      cases hg : sl.get name with
      | none =>
        exact regInvariant_aset s hinv fmt cls fd sl name g (Or.inr hf)
      | some f0 =>
        have hset : aset fmt fd s.formats = s.formats := aset_of_alookup_some hf
        cases cls with
        | none => simpa [hset] using hinv
        | some c => simpa [hset] using hinv

/-- `register_identifier` never touches `_formats`. -/
theorem register_identifier_formats (fmt : Fmt) (f : Func) (s : Registry) :
    (register_identifier fmt f s).2.formats = s.formats := by
  unfold register_identifier
  by_cases h : (alookup fmt s.identifiers).isSome
  · simp [h]
  · simp [h]

/-- Every reachable registry state satisfies the store invariant. -/
theorem reachable_regInvariant (s : Registry) (h : Reachable s) : RegInvariant s := by
  induction h with
  | init =>
    intro fmt fd hfd
    simp [emptyRegistry, alookup] at hfd
  | regIdentifier fmt f s hs ih =>
    intro fmt' fd' hfd'
    rw [register_identifier_formats] at hfd'
    exact ih fmt' fd' hfd'
  | regRW name fmt args f s hs ih =>
    unfold _rw_decorator
    by_cases ha : 1 < args.length
    · simpa [ha] using ih
    · simp only [if_neg ha]
      exact rwDecoratorBody_inv name fmt (args.headD none) f s ih

/-- C9: every reachable registry state has a reader or a writer bound in
every (format, owner type) slot present in the store, and consequently the
restriction test of `guess_format` (the owner type being a key under the
format) holds exactly when some reader or writer is bound to that pair. -/
theorem registry_slot_invariant (s : Registry) (h : Reachable s) :
    RegInvariant s ∧
    ∀ (fmt : Fmt) (c : PyType),
      (guessSkip s.formats (some c) fmt = false ↔
        ((getRole .reader fmt (some c) s).isSome ∨
          (getRole .writer fmt (some c) s).isSome)) := by
  have hinv := reachable_regInvariant s h
  refine ⟨hinv, fun fmt c => ?_⟩
  unfold guessSkip getRole
  cases hf : alookup fmt s.formats with
  | none => simp
  | some fd =>
    cases hc : alookup (some c) fd with
    | none => simp [hc]
    | some sl =>
      simp only [hc, Option.isNone_some, Option.isSome_some, Bool.true_and,
        Option.some_bind]
      have := hinv fmt fd hf (some c) sl hc
      cases hr : sl.reader with
      | some f0 => simp [RoleSlot.get, hr]
      | none =>
        cases hw : sl.writer with
        | some f0 => simp [RoleSlot.get, hr, hw]
        | none =>
          exfalso
          rcases this with h1 | h1
          · rw [hr] at h1; simp at h1
          · rw [hw] at h1; simp at h1

/-- Witness for C9 at the empty (initial) registry state. -/
theorem registry_slot_invariant_witness :
    RegInvariant emptyRegistry ∧
    ∀ (fmt : Fmt) (c : PyType),
      (guessSkip emptyRegistry.formats (some c) fmt = false ↔
        ((getRole .reader fmt (some c) emptyRegistry).isSome ∨
          (getRole .writer fmt (some c) emptyRegistry).isSome)) :=
  registry_slot_invariant emptyRegistry Reachable.init

/-! ### Sniffing (C4, C5) -/

/-- The set (as an ordered list) of positive identifier verdicts taken at
stream position 0, over the identifiers passing the class restriction. -/
def guessVerdicts (idI : Func → Ident) (formats : FormatsStore) (cls : Option PyType)
    (idents : List (Fmt × Func)) : List Fmt :=
  idents.filterMap fun e =>
    if !guessSkip formats cls e.1 && (idI e.2 0).1 then some e.1 else none

/-- A stream already at position 0 is unchanged by seeking to 0. -/
theorem stream_seek0_eq (fh : Stream) (h : fh.pos = 0) :
    ({ fh with pos := 0 } : Stream) = fh := by
  cases fh
  simp only at h
  simp [h]

/-- The identifier loop started at position 0 collects exactly the positive
verdicts at position 0 of the non-skipped identifiers, and hands the stream
back at position 0 (each trial seeks back to the start). -/
theorem guessLoop_eq (idI : Func → Ident) (formats : FormatsStore) (cls : Option PyType) :
    ∀ (idents : List (Fmt × Func)) (fh : Stream) (acc : List Fmt), fh.pos = 0 →
      guessLoop idI formats cls idents fh acc
        = (acc ++ guessVerdicts idI formats cls idents, fh) := by
  intro idents
  induction idents with
  | nil =>
    intro fh acc h
    simp [guessLoop, guessVerdicts]
  | cons hd rest ih =>
    intro fh acc h
    obtain ⟨fmt, test⟩ := hd
    by_cases hsk : guessSkip formats cls fmt
    · rw [guessLoop, if_pos hsk, ih fh acc h]
      simp [guessVerdicts, hsk]
    · rw [guessLoop, if_neg hsk]
      simp only
      have hfh : ({ pos := 0, closed := fh.closed } : Stream) = fh := by
        cases fh
        simp only at h
        simp [h]
      rw [h, hfh, ih fh _ h]
      by_cases hv : (idI test 0).1
      · simp [guessVerdicts, hsk, hv]
      · simp [guessVerdicts, hsk, hv]

/-- C4: `guess_format` applies the decision rule to the set of positive
identifier verdicts: zero matches raise the cannot-determine identification
failure, two or more matches raise the identification failure naming all
matched formats, and exactly one match returns that format name. -/
theorem guess_format_decision_rule (idI : Func → Ident) (s : Registry)
    (cls : Option PyType) (fp : Stream) :
    (guess_format idI s cls fp).1 =
      match guessVerdicts idI s.formats cls s.identifiers with
      | [] => .error (.formatIdentificationError "Cannot guess the format." [])
      | [f] => .ok f
      | possibles =>
          .error (.formatIdentificationError "File format is ambiguous." possibles) := by
  simp only [guess_format]
  rw [guessLoop_eq idI s.formats cls s.identifiers ⟨0, fp.closed⟩ [] rfl]
  simp only [List.nil_append]
  cases hv : guessVerdicts idI s.formats cls s.identifiers with
  | nil => simp
  | cons f rest =>
    cases rest with
    | nil => simp
    | cons f2 rest2 =>
      simp only [List.isEmpty_cons, Bool.false_eq_true, if_false, List.length_cons]
      rw [if_pos (by omega)]

/-- The complement of the skip test, under the store invariant, is exactly
the reader-or-writer-bound test (and no restriction at all when no class is
requested). -/
theorem guessSkip_not (s : Registry) (hinv : RegInvariant s) (cls : Option PyType)
    (fmt : Fmt) :
    (!guessSkip s.formats cls fmt)
      = (cls.isNone ||
          ((getRole .reader fmt cls s).isSome || (getRole .writer fmt cls s).isSome)) := by
  unfold guessSkip getRole
  cases cls with
  | none => simp
  | some c =>
    simp only [Option.isSome_some, Bool.true_and, Option.isNone_some, Bool.false_or]
    cases hf : alookup fmt s.formats with
    | none => simp
    | some fd =>
      simp only [Option.some_bind]
      cases hc : alookup (some c) fd with
      | none => simp
      | some sl =>
        simp only [Option.isNone_some, Bool.not_false, Option.some_bind]
        have := hinv fmt fd hf (some c) sl hc
        cases hr : sl.reader with
        | some f0 => simp [RoleSlot.get, hr]
        | none =>
          cases hw : sl.writer with
          | some f0 => simp [RoleSlot.get, hr, hw]
          | none =>
            exfalso
            rcases this with h1 | h1
            · rw [hr] at h1; simp at h1
            · rw [hw] at h1; simp at h1

/-- C5: during `guess_format`, the identifier loop invokes exactly the
registered identifiers whose format has a reader or a writer bound to the
requested owner type (all of them when no owner type is given), each judged
by its verdict at stream position 0, and the stream position is back at the
start after every trial, in particular on exit. -/
theorem guess_format_invocations (idI : Func → Ident) (s : Registry)
    (cls : Option PyType) (fp : Stream) (hinv : RegInvariant s) :
    (guess_format idI s cls fp).2 = { fp with pos := 0 } ∧
    guessLoop idI s.formats cls s.identifiers { fp with pos := 0 } [] =
      (s.identifiers.filterMap fun e =>
        if (cls.isNone ||
              ((getRole .reader e.1 cls s).isSome || (getRole .writer e.1 cls s).isSome))
            && (idI e.2 0).1
          then some e.1 else none,
        { fp with pos := 0 }) := by
  have hloop := guessLoop_eq idI s.formats cls s.identifiers ⟨0, fp.closed⟩ [] rfl
  have hfilter : guessVerdicts idI s.formats cls s.identifiers =
      s.identifiers.filterMap fun e =>
        if (cls.isNone ||
              ((getRole .reader e.1 cls s).isSome || (getRole .writer e.1 cls s).isSome))
            && (idI e.2 0).1
          then some e.1 else none := by
    unfold guessVerdicts
    congr 1
    funext e
    rw [guessSkip_not s hinv cls e.1]
  constructor
  · simp only [guess_format]
    rw [hloop]
    simp only [List.nil_append]
    split_ifs <;> rfl
  · show guessLoop idI s.formats cls s.identifiers ⟨0, fp.closed⟩ [] = _
    rw [hloop, hfilter]
    simp

/-- Witness for C5 at the empty registry (whose invariant holds trivially). -/
theorem guess_format_invocations_witness :
    (guess_format (fun _ _ => (false, 0)) emptyRegistry none ⟨5, false⟩).2
        = { pos := 0, closed := false } ∧
    guessLoop (fun _ _ => (false, 0)) emptyRegistry.formats none
        emptyRegistry.identifiers { pos := 0, closed := false } [] =
      (emptyRegistry.identifiers.filterMap fun e =>
        if ((none : Option PyType).isNone ||
              ((getRole .reader e.1 none emptyRegistry).isSome ||
                (getRole .writer e.1 none emptyRegistry).isSome))
            && ((fun (_ : Func) (_ : Nat) => (false, 0)) e.2 0).1
          then some e.1 else none,
        { pos := 0, closed := false }) :=
  guess_format_invocations (fun _ _ => (false, 0)) emptyRegistry none ⟨5, false⟩
    (fun fmt fd hfd => by simp [emptyRegistry, alookup] at hfd)

/-! ### The streaming wrapper generator (C3, C10) -/

/-- The stream-release invariant of the wrapper generator over an owned
stream: the handle has been closed exactly when (and as often as) the
generator has finished. -/
def WGen.CloseInv (g : WGen) : Prop :=
  g.is_own = true ∧
  g.closes = (if g.stage = WStage.done then 1 else 0) ∧
  (g.fh.closed = true ↔ g.stage = WStage.done)

theorem WGen.next_closeInv (rdG : Func → Stream → GenBehavior) (g : WGen)
    (h : WGen.CloseInv g) : WGen.CloseInv (WGen.next rdG g).2 := by
  obtain ⟨hown, hcl, hfh⟩ := h
  cases hst : g.stage with
  | done =>
    simp only [WGen.next, hst]
    exact ⟨hown, hcl, hfh⟩
  | start =>
    rw [hst] at hcl hfh
    have hcl0 : g.closes = 0 := by simpa using hcl
    have hfh0 : g.fh.closed = false := by simpa using hfh
    simp only [WGen.next, hst]
    cases hb : (rdG g.reader g.fh).items with
    | nil => simp [WGen.step, hb, hown, WGen.CloseInv, hcl0]
    | cons v rest => simp [WGen.step, hb, hown, WGen.CloseInv, hcl0, hfh0]
  | active rem te =>
    rw [hst] at hcl hfh
    have hcl0 : g.closes = 0 := by simpa using hcl
    have hfh0 : g.fh.closed = false := by simpa using hfh
    simp only [WGen.next, hst]
    cases rem with
    | nil => simp [WGen.step, hst, hown, WGen.CloseInv, hcl0]
    | cons v rest => simp [WGen.step, hst, hown, WGen.CloseInv, hcl0, hfh0]

theorem WGen.run_closeInv (rdG : Func → Stream → GenBehavior) (n : Nat) (g : WGen)
    (h : WGen.CloseInv g) : WGen.CloseInv (WGen.run rdG n g) := by
  induction n generalizing g with
  | zero => exact h
  | succ n ih => exact ih _ (WGen.next_closeInv rdG g h)

/-- What the close invariant says about the counters: at most one close has
happened, and exactly one precisely when the generator has finished. -/
theorem WGen.closeInv_closes (g : WGen) (h : WGen.CloseInv g) :
    g.closes ≤ 1 ∧ (g.closes = 1 ↔ g.stage = WStage.done) := by
  obtain ⟨-, hcl, -⟩ := h
  by_cases hd : g.stage = WStage.done
  · rw [hcl, if_pos hd]
    exact ⟨Nat.le_refl 1, by simp [hd]⟩
  · rw [hcl, if_neg hd]
    exact ⟨by omega, by simp [hd]⟩

/-- A pull on a live wrapper generator over an owned stream either finishes
it — closing the stream in the same step and surfacing `StopIteration` or
the error raised while pulling — or yields an element, leaving the stream
untouched. -/
theorem WGen.next_close_step (rdG : Func → Stream → GenBehavior) (g : WGen)
    (hown : g.is_own = true) (hnd : g.stage ≠ WStage.done) :
    ((WGen.next rdG g).2.closes = g.closes + 1 ∧
      (WGen.next rdG g).2.stage = WStage.done ∧
      ((WGen.next rdG g).1 = PullResult.stopped ∨
        ∃ e, (WGen.next rdG g).1 = PullResult.raised e)) ∨
    ((WGen.next rdG g).2.closes = g.closes ∧
      (WGen.next rdG g).2.stage ≠ WStage.done ∧
      ∃ v, (WGen.next rdG g).1 = PullResult.yielded v) := by
  cases hst : g.stage with
  | done => exact absurd hst hnd
  | start =>
    simp only [WGen.next, hst]
    cases hb : (rdG g.reader g.fh).items with
    | nil =>
      left
      cases hte : (rdG g.reader g.fh).tailErr with
      | none => simp [WGen.step, hb, hte, hown]
      | some e => simp [WGen.step, hb, hte, hown]
    | cons v rest =>
      right
      simp [WGen.step, hb]
  | active rem te =>
    simp only [WGen.next, hst]
    cases rem with
    | nil =>
      left
      cases te with
      | none => simp [WGen.step, hst, hown]
      | some e => simp [WGen.step, hst, hown]
    | cons v rest =>
      right
      simp [WGen.step, hst]

/-- C3: in streaming mode (`into` absent, format supplied, reader found)
with a path source, the owned stream is not closed when `read` returns; it
is closed at most once however far the sequence is driven, it is closed
exactly when the wrapper generator has terminated, and the closing step is
exactly the pull that ends the sequence — normal exhaustion
(`StopIteration`) or an error raised while pulling — every other pull
yields an element and leaves the stream open. -/
theorem streaming_read_releases_exactly_once (idI : Func → Ident)
    (rdG : Func → Stream → GenBehavior)
    (rdE : Func → Stream → Except PyErr (Val × Stream)) (s : Registry)
    (p : String) (f : Fmt) (g : WGen)
    (h : (read idI rdE s (.path p) (some f) none).1 = .ok (.lazy g)) :
    (g.closes = 0 ∧ g.fh.closed = false) ∧
    (∀ n, (WGen.run rdG n g).closes ≤ 1) ∧
    (∀ n, ((WGen.run rdG n g).closes = 1 ↔ (WGen.run rdG n g).stage = WStage.done)) ∧
    (∀ n, (WGen.run rdG n g).stage ≠ WStage.done →
      (((WGen.next rdG (WGen.run rdG n g)).2.closes = (WGen.run rdG n g).closes + 1 ∧
          (WGen.next rdG (WGen.run rdG n g)).2.stage = WStage.done ∧
          ((WGen.next rdG (WGen.run rdG n g)).1 = PullResult.stopped ∨
            ∃ e, (WGen.next rdG (WGen.run rdG n g)).1 = PullResult.raised e)) ∨
        ((WGen.next rdG (WGen.run rdG n g)).2.closes = (WGen.run rdG n g).closes ∧
          (WGen.next rdG (WGen.run rdG n g)).2.stage ≠ WStage.done ∧
          ∃ v, (WGen.next rdG (WGen.run rdG n g)).1 = PullResult.yielded v))) := by
  unfold read at h
  rw [if_neg (by simp : ¬((some f : Option Fmt) = none ∧ (none : Option PyType) = none))] at h
  simp only [_get_filehandle, _rw_getter, List.length_singleton, Nat.lt_irrefl,
    if_false, List.headD_cons] at h
  cases hr : getRole .reader f none s with
  | none => simp [hr] at h
  | some r =>
    simp only [hr] at h
    injection h with h
    injection h with h
    subst h
    have hInv0 : WGen.CloseInv
        { reader := r, fh := { pos := 0, closed := false }, is_own := true,
          stage := .start, closes := 0, readerCalls := 0 } := by
      refine ⟨rfl, by simp, by simp⟩
    refine ⟨⟨rfl, rfl⟩, ?_, ?_, ?_⟩
    · intro n
      exact (WGen.closeInv_closes _ (WGen.run_closeInv rdG n _ hInv0)).1
    · intro n
      exact (WGen.closeInv_closes _ (WGen.run_closeInv rdG n _ hInv0)).2
    · intro n hnd
      exact WGen.next_close_step rdG _ (WGen.run_closeInv rdG n _ hInv0).1 hnd

/-- Identifier interpretation used in concrete runs: every identifier says
no and leaves the position at 0. -/
def idI0 : Func → Ident := fun _ _ => (false, 0)

/-- Eager reader interpretation used in concrete runs: return 0, stream
unchanged. -/
def rdE0 : Func → Stream → Except PyErr (Val × Stream) := fun _ st => .ok (0, st)

/-- Streaming reader interpretation used in concrete runs: one element,
then normal exhaustion. -/
def rdG1 : Func → Stream → GenBehavior := fun _ _ => ⟨[7], none⟩

/-- A registry with a streaming (no-type) reader registered for fasta,
built through the registration API. -/
def sStreamReader : Registry := (_rw_decorator .reader "fasta" [] 5 emptyRegistry).2

/-- The wrapper generator the concrete streaming `read` run returns. -/
def gStream : WGen :=
  { reader := 5, fh := { pos := 0, closed := false }, is_own := true,
    stage := .start, closes := 0, readerCalls := 0 }

/-- Witness for C3 at a concrete streaming read over a path. -/
theorem streaming_read_releases_exactly_once_witness :
    (gStream.closes = 0 ∧ gStream.fh.closed = false) ∧
    (WGen.run rdG1 3 gStream).closes ≤ 1 ∧
    ((WGen.run rdG1 3 gStream).closes = 1 ↔ (WGen.run rdG1 3 gStream).stage = WStage.done) :=
  have h := streaming_read_releases_exactly_once idI0 rdG1 rdE0 sStreamReader
    "seqs.txt" "fasta" gStream rfl
  ⟨h.1, h.2.1 3, h.2.2.1 3⟩

theorem WGen.next_readerCalls (rdG : Func → Stream → GenBehavior) (g : WGen) :
    (WGen.next rdG g).2.stage ≠ WStage.start ∧
    (WGen.next rdG g).2.readerCalls
      = (if g.stage = WStage.start then g.readerCalls + 1 else g.readerCalls) := by
  cases hst : g.stage with
  | done => simp [WGen.next, hst]
  | start =>
    simp only [WGen.next, hst]
    cases hb : (rdG g.reader g.fh).items with
    | nil => simp [WGen.step, hb]
    | cons v rest => simp [WGen.step, hb]
  | active rem te =>
    simp only [WGen.next, hst]
    cases rem with
    | nil => simp [WGen.step, hst]
    | cons v rest => simp [WGen.step, hst]

theorem WGen.run_readerCalls_stable (rdG : Func → Stream → GenBehavior) (n : Nat)
    (g : WGen) (h1 : g.stage ≠ WStage.start) (h2 : g.readerCalls = 1) :
    (WGen.run rdG n g).readerCalls = 1 := by
  induction n generalizing g with
  | zero => exact h2
  | succ n ih =>
    have hn := WGen.next_readerCalls rdG g
    exact ih _ hn.1 (by rw [hn.2, if_neg h1, h2])

/-- C10: in streaming mode, `read` performs the no-such-reader check
eagerly — a missing reader raises before any lazy sequence exists — yet the
reader itself has not been invoked when `read` returns the lazy sequence;
it is invoked exactly at the first pull and never again. -/
theorem streaming_reader_invoked_lazily (idI : Func → Ident)
    (rdG : Func → Stream → GenBehavior)
    (rdE : Func → Stream → Except PyErr (Val × Stream)) (s : Registry)
    (p : String) (f : Fmt) :
    (∀ g, (read idI rdE s (.path p) (some f) none).1 = .ok (.lazy g) →
      g.readerCalls = 0 ∧
      ∀ n, (WGen.run rdG n g).readerCalls = if n = 0 then 0 else 1) ∧
    (getRole .reader f none s = none →
      (read idI rdE s (.path p) (some f) none).1
        = .error (.fileFormatError
            ("Cannot read " ++ f ++ " into " ++ "generator" ++ ", no reader found."))) := by
  constructor
  · intro g h
    unfold read at h
    rw [if_neg (by simp : ¬((some f : Option Fmt) = none ∧ (none : Option PyType) = none))] at h
    simp only [_get_filehandle, _rw_getter, List.length_singleton, Nat.lt_irrefl,
      if_false, List.headD_cons] at h
    cases hr : getRole .reader f none s with
    | none => simp [hr] at h
    | some r =>
      simp only [hr] at h
      injection h with h
      injection h with h
      subst h
      refine ⟨rfl, fun n => ?_⟩
      cases n with
      | zero => rfl
      | succ n =>
        rw [if_neg (Nat.succ_ne_zero n)]
        show (WGen.run rdG n (WGen.next rdG _).2).readerCalls = 1
        have hn := WGen.next_readerCalls rdG
          { reader := r, fh := { pos := 0, closed := false }, is_own := true,
            stage := .start, closes := 0, readerCalls := 0 }
        exact WGen.run_readerCalls_stable rdG n _ hn.1 (by rw [hn.2]; simp)
  · intro hr
    unfold read
    rw [if_neg (by simp : ¬((some f : Option Fmt) = none ∧ (none : Option PyType) = none))]
    simp only [_get_filehandle, _rw_getter, List.length_singleton, Nat.lt_irrefl,
      if_false, List.headD_cons, hr]

/-- Witness for C10: the concrete streaming run returns before any reader
invocation and invokes it exactly once from the first pull on; a registry
with no streaming reader fails eagerly. -/
theorem streaming_reader_invoked_lazily_witness :
    (gStream.readerCalls = 0 ∧
      (WGen.run rdG1 0 gStream).readerCalls = 0 ∧
      (WGen.run rdG1 1 gStream).readerCalls = 1 ∧
      (WGen.run rdG1 4 gStream).readerCalls = 1) ∧
    (read idI0 rdE0 emptyRegistry (.path "seqs.txt") (some "fasta") none).1
      = .error (.fileFormatError
          ("Cannot read " ++ "fasta" ++ " into " ++ "generator" ++ ", no reader found.")) :=
  have h1 := (streaming_reader_invoked_lazily idI0 rdG1 rdE0 sStreamReader
    "seqs.txt" "fasta").1 gStream rfl
  have h2 := (streaming_reader_invoked_lazily idI0 rdG1 rdE0 emptyRegistry
    "seqs.txt" "fasta").2 rfl
  ⟨⟨h1.1, by simpa using h1.2 0, by simpa using h1.2 1, by simpa using h1.2 4⟩, h2⟩

/-! ### Dispatch failure paths (C1, C8) -/

/-- Eager reader interpretation that raises. -/
def rdEraise : Func → Stream → Except PyErr (Val × Stream) := fun _ _ => .error (.userError 3)

/-- C1 (code bug): in `read` with a path source, every dispatch failure
after the stream is acquired — a no-such-reader failure, an identification
failure while guessing the format, or an error raised by the eagerly
invoked reader — propagates with the owned stream still open: `read` has no
release on these paths, so the owned stream leaks, against the stated
guarantee that a failure during dispatch never leaks an owned stream. -/
theorem read_dispatch_failure_leaks_owned_stream :
    ((read idI0 rdE0 emptyRegistry (.path "seqs.txt") (some "fasta") (some "DNA")).1
        = .error (.fileFormatError
            ("Cannot read " ++ "fasta" ++ " into " ++ "DNA" ++ ", no reader found.")) ∧
      (read idI0 rdE0 emptyRegistry (.path "seqs.txt") (some "fasta") (some "DNA")).2
        = some { pos := 0, closed := false }) ∧
    ((read idI0 rdE0 emptyRegistry (.path "seqs.txt") none (some "DNA")).1
        = .error (.formatIdentificationError "Cannot guess the format." []) ∧
      (read idI0 rdE0 emptyRegistry (.path "seqs.txt") none (some "DNA")).2
        = some { pos := 0, closed := false }) ∧
    ((read idI0 rdEraise sDNAReader (.path "seqs.txt") (some "fasta") (some "DNA")).1
        = .error (.userError 3) ∧
      (read idI0 rdEraise sDNAReader (.path "seqs.txt") (some "fasta") (some "DNA")).2
        = some { pos := 0, closed := false }) :=
  ⟨⟨rfl, rfl⟩, ⟨rfl, rfl⟩, rfl, rfl⟩

/-- C8: `write` with a supplied format and a path destination and no writer
registered for (format, type of obj) raises the no-such-writer failure and
the path-opened stream is closed before the failure propagates (the scoped
acquisition closes it on every exit path). -/
theorem write_no_writer_closes_owned_stream
    (wrI : Func → Val → Stream → Except PyErr Stream) (s : Registry) (obj : Val)
    (objCls : PyType) (f : Fmt) (p : String)
    (h : getRole .writer f (some objCls) s = none) :
    (write wrI s obj objCls (some f) (some (.path p))).1
        = .error (.fileFormatError ("Cannot write " ++ f ++ " into stream, no writer found.")) ∧
    (write wrI s obj objCls (some f) (some (.path p))).2
        = some { pos := 0, closed := true } := by
  unfold write
  simp [_get_filehandle, _rw_getter, h]

/-- Writer interpretation used in concrete runs: leave the stream as is. -/
def wrI0 : Func → Val → Stream → Except PyErr Stream := fun _ _ st => .ok st

/-- Witness for C8 at the empty registry and a concrete path destination. -/
theorem write_no_writer_closes_owned_stream_witness :
    (write wrI0 emptyRegistry 0 "DNA" (some "fasta") (some (.path "out.txt"))).1
        = .error (.fileFormatError ("Cannot write " ++ "fasta" ++ " into stream, no writer found.")) ∧
    (write wrI0 emptyRegistry 0 "DNA" (some "fasta") (some (.path "out.txt"))).2
        = some { pos := 0, closed := true } :=
  write_no_writer_closes_owned_stream wrI0 emptyRegistry 0 "DNA" "fasta" "out.txt" rfl

end SkbioIO
